import Mathlib

/-!
Verification development for the DIANA inference backend (`server/main.py`).

The development shallowly embeds the core of the server:

* the Content Hasher `compute_file_hash` / `compute_data_hash` (SHA-256 of the
  file bytes, resp. of the canonical JSON serialization, truncated to 16 hex
  characters);
* the Prediction Generator `generate_dummy_prediction` (a pseudo-random
  generator seeded from Python's salted string hash of
  `f"{behavior_id}_{input_hash}"`);
* the Job Runner `run_inference` (status/progress updates applied to the job
  record under the jobs lock, with the `except` fallback to a failed state);
* the jobs registry (a dict holding mutable record objects, modelled as a heap
  of records addressed by references) and the status/results endpoints.

Machine integers are modelled as `Nat` with explicit `% 2 ^ 32` / `% 2 ^ 64`
reductions; Python floats are modelled as exact rationals (the claims under
study only concern ranges and equalities that are unaffected by binary float
rounding); fallible code returns `Option`/`Except`.
-/

/-! ### SHA-256 (model of `hashlib.sha256`)

Bytes are `Nat`s below 256; 32-bit words are `Nat`s reduced modulo `2 ^ 32`.
-/

def w32 (x : Nat) : Nat := x % (2 ^ 32)

def rotr32 (n x : Nat) : Nat := w32 ((x >>> n) ||| (x <<< (32 - n)))

def ch32 (x y z : Nat) : Nat := w32 ((x &&& y) ^^^ ((x ^^^ (2 ^ 32 - 1)) &&& z))

def maj32 (x y z : Nat) : Nat := w32 ((x &&& y) ^^^ (x &&& z) ^^^ (y &&& z))

def bigSigma0 (x : Nat) : Nat := rotr32 2 x ^^^ rotr32 13 x ^^^ rotr32 22 x

def bigSigma1 (x : Nat) : Nat := rotr32 6 x ^^^ rotr32 11 x ^^^ rotr32 25 x

def smallSigma0 (x : Nat) : Nat := rotr32 7 x ^^^ rotr32 18 x ^^^ (x >>> 3)

def smallSigma1 (x : Nat) : Nat := rotr32 17 x ^^^ rotr32 19 x ^^^ (x >>> 10)

/-- Round constant schedule of FIPS 180-4 (the 64 words, written in decimal). -/
def sha256K : List Nat :=
  [1116352408, 1899447441, 3049323471, 3921009573, 961987163,
   1508970993, 2453635748, 2870763221, 3624381080, 310598401,
   607225278, 1426881987, 1925078388, 2162078206, 2614888103,
   3248222580, 3835390401, 4022224774, 264347078, 604807628,
   770255983, 1249150122, 1555081692, 1996064986, 2554220882,
   2821834349, 2952996808, 3210313671, 3336571891, 3584528711,
   113926993, 338241895, 666307205, 773529912, 1294757372,
   1396182291, 1695183700, 1986661051, 2177026350, 2456956037,
   2730485921, 2820302411, 3259730800, 3345764771, 3516065817,
   3600352804, 4094571909, 275423344, 430227734, 506948616,
   659060556, 883997877, 958139571, 1322822218, 1537002063,
   1747873779, 1955562222, 2024104815, 2227730452, 2361852424,
   2428436474, 2756734187, 3204031479, 3329325298]

/-- Running state of SHA-256: the eight 32-bit working variables. -/
structure Sha8 where
  a : Nat
  b : Nat
  c : Nat
  d : Nat
  e : Nat
  f : Nat
  g : Nat
  h : Nat

/-- Initial hash value of FIPS 180-4 (the eight words, written in decimal). -/
def sha256Init : Sha8 :=
  ⟨1779033703, 3144134277, 1013904242, 2773480762,
   1359893119, 2600822924, 528734635, 1541459225⟩

/-- Message-schedule extension: the first 16 words of a block are extended to 64. -/
def extendSchedule (ws : List Nat) : List Nat :=
  (List.range 48).foldl
    (fun acc _ =>
      let t := acc.length
      acc ++ [w32 (smallSigma1 (acc.getD (t - 2) 0) + acc.getD (t - 7) 0 +
        smallSigma0 (acc.getD (t - 15) 0) + acc.getD (t - 16) 0)])
    ws

def sha256Round (s : Sha8) (kw : Nat × Nat) : Sha8 :=
  let t1 := w32 (s.h + bigSigma1 s.e + ch32 s.e s.f s.g + kw.2 + kw.1)
  let t2 := w32 (bigSigma0 s.a + maj32 s.a s.b s.c)
  ⟨w32 (t1 + t2), s.a, s.b, s.c, w32 (s.d + t1), s.e, s.f, s.g⟩

def sha256Compress (st : Sha8) (block : List Nat) : Sha8 :=
  let r := ((extendSchedule block).zip sha256K).foldl sha256Round st
  ⟨w32 (st.a + r.a), w32 (st.b + r.b), w32 (st.c + r.c), w32 (st.d + r.d),
   w32 (st.e + r.e), w32 (st.f + r.f), w32 (st.g + r.g), w32 (st.h + r.h)⟩

/-- Fuelled chunking of a list into pieces of at most `n` elements; with
`fuel = l.length` it yields exactly the chunks produced by repeatedly taking
`n` elements (the model of both `f.read(8192)` streaming and block splitting). -/
def chunksOf (n : Nat) : Nat → List α → List (List α)
  | 0, _ => []
  | _, [] => []
  | fuel + 1, l => l.take n :: chunksOf n fuel (l.drop n)

/-- Standard SHA-256 padding: `0x80`, zeros to 56 mod 64, 8-byte big-endian bit length. -/
def sha256Pad (msg : List Nat) : List Nat :=
  let L := msg.length
  let zeros := (64 - ((L + 9) % 64)) % 64
  let bitLen := 8 * L
  msg ++ 0x80 :: List.replicate zeros 0 ++
    [bitLen / 2 ^ 56 % 256, bitLen / 2 ^ 48 % 256, bitLen / 2 ^ 40 % 256, bitLen / 2 ^ 32 % 256,
     bitLen / 2 ^ 24 % 256, bitLen / 2 ^ 16 % 256, bitLen / 2 ^ 8 % 256, bitLen % 256]

/-- Big-endian grouping of bytes into 32-bit words. -/
def toWords : List Nat → List Nat
  | a :: b :: c :: d :: rest => (a * 2 ^ 24 + b * 2 ^ 16 + c * 2 ^ 8 + d) :: toWords rest
  | _ => []

def sha256Digest (msg : List Nat) : Sha8 :=
  let ws := toWords (sha256Pad msg)
  (chunksOf 16 ws.length ws).foldl sha256Compress sha256Init

def hexChar (n : Nat) : Char := "0123456789abcdef".data.getD n '0'

/-- Fixed-width (8 hex character) rendering of a 32-bit word. -/
def toHex8 (w : Nat) : List Char :=
  [hexChar (w / 16 ^ 7 % 16), hexChar (w / 16 ^ 6 % 16), hexChar (w / 16 ^ 5 % 16),
   hexChar (w / 16 ^ 4 % 16), hexChar (w / 16 ^ 3 % 16), hexChar (w / 16 ^ 2 % 16),
   hexChar (w / 16 % 16), hexChar (w % 16)]

/-- Characters of `hashlib.sha256(msg).hexdigest()`: 64 lowercase hex characters. -/
def sha256HexChars (msg : List Nat) : List Char :=
  let d := sha256Digest msg
  toHex8 d.a ++ toHex8 d.b ++ toHex8 d.c ++ toHex8 d.d ++
    toHex8 d.e ++ toHex8 d.f ++ toHex8 d.g ++ toHex8 d.h

/-- Embedding of `compute_file_hash` (`main.py` lines 126-132): the file is
streamed in 8192-byte chunks through `sha256.update`; incremental updates
digest the concatenation of the chunks, so the buffer fed to the digest is the
fold of the chunks.  The hex digest is truncated by `[:16]`. -/
def compute_file_hash (fileBytes : List Nat) : String :=
  let buffer := (chunksOf 8192 fileBytes.length fileBytes).foldl
    (fun acc chunk => acc ++ chunk) ([] : List Nat)
  String.mk ((sha256HexChars buffer).take 16)

/-! ### Structured documents and `json.dumps(data, sort_keys=True)`

Model of the JSON values handled by the server (skeleton uploads are JSON
documents whose mapping keys are strings).  `compute_data_hash` serializes the
document with `json.dumps(data, sort_keys=True)`: every mapping's keys are
emitted in sorted order.  Sorting the keys during serialization is the same as
first recursively key-sorting the document (`canon`) and then serializing it
plainly, which is how it is written below.
-/

inductive J where
  | null : J
  | bool (b : Bool) : J
  | num (n : Int) : J
  | str (s : String) : J
  | arr (elems : List J) : J
  | obj (fields : List (String × J)) : J

/-- Key ordering used by `sort_keys=True`. -/
def keyLE (p q : String × J) : Prop := p.1 ≤ q.1

instance : DecidableRel keyLE := fun p q => inferInstanceAs (Decidable (p.1 ≤ q.1))

instance : IsTotal (String × J) keyLE := ⟨fun p q => le_total p.1 q.1⟩

instance : IsTrans (String × J) keyLE := ⟨fun _ _ _ h1 h2 => le_trans h1 h2⟩

def sortKeys (l : List (String × J)) : List (String × J) := List.insertionSort keyLE l

mutual

/-- Recursively sort every mapping's fields by key (the canonical form that
`sort_keys=True` serializes). -/
def canon : J → J
  | .null => .null
  | .bool b => .bool b
  | .num n => .num n
  | .str s => .str s
  | .arr xs => .arr (canonList xs)
  | .obj fs => .obj (sortKeys (canonFields fs))

def canonList : List J → List J
  | [] => []
  | x :: xs => canon x :: canonList xs

def canonFields : List (String × J) → List (String × J)
  | [] => []
  | (k, v) :: fs => (k, canon v) :: canonFields fs

end

/-- JSON string quoting (quote and backslash escaped; the further control and
non-ASCII escapes applied by `json.dumps` are irrelevant to the claims, which
only use that serialization is a function of the document). -/
def quoteJson (s : String) : String :=
  "\"" ++ s.data.foldl
    (fun acc c =>
      if c = '"' then acc ++ "\\\""
      else if c = '\\' then acc ++ "\\\\"
      else acc ++ String.singleton c) "" ++ "\""

mutual

/-- Plain serialization with `json.dumps`'s default separators `", "`/`": "`;
applied to `canon d` it renders `json.dumps(d, sort_keys=True)`. -/
def serialize : J → String
  | .null => "null"
  | .bool true => "true"
  | .bool false => "false"
  | .num n => toString n
  | .str s => quoteJson s
  | .arr xs => "[" ++ serializeItems xs ++ "]"
  | .obj fs => "\x7b" ++ serializeFields fs ++ "\x7d"

def serializeItems : List J → String
  | [] => ""
  | [x] => serialize x
  | x :: xs => serialize x ++ ", " ++ serializeItems xs

def serializeFields : List (String × J) → String
  | [] => ""
  | [(k, v)] => quoteJson k ++ ": " ++ serialize v
  | (k, v) :: fs => quoteJson k ++ ": " ++ serialize v ++ ", " ++ serializeFields fs

end

/-- Model of `str.encode()` on the serialized document: the byte sequence fed
to the digest; modelled as the code-point sequence (which agrees with UTF-8 on
ASCII output and is, like UTF-8, injective on strings, the only property the
digest input needs). -/
def strBytes (s : String) : List Nat := s.data.map Char.toNat

/-- Embedding of `compute_data_hash` (`main.py` lines 135-138):
`hashlib.sha256(json.dumps(data, sort_keys=True).encode()).hexdigest()[:16]`. -/
def compute_data_hash (data : J) : String :=
  String.mk ((sha256HexChars (strBytes (serialize (canon data)))).take 16)

/-! ### Pseudo-randomness and the Prediction Generator

`generate_dummy_prediction` (`main.py` lines 156-174) seeds CPython's global
Mersenne Twister with `random.seed(hash(f"{behavior_id}_{input_hash}"))` and
draws `random.choices([0, 1, 2], weights=[0.2, 0.35, 0.45])[0]` followed by
`random.uniform(0.65, 0.95)`.

Two pieces of CPython are external to the repository and are modelled at the
level of their documented contracts, keeping their essential structure:

* `hash(str)`: CPython's string hash is siphash13 keyed by a per-process salt
  (hash randomization, `PYTHONHASHSEED`).  `pyHash` models it as a
  deterministic 64-bit mix of the per-process salt and the string; what the
  claims use is exactly that it is a function of `(salt, string)`, fixed within
  one process but varying with the salt across processes.
* the global Mersenne Twister: modelled as a 64-bit state; `random.seed(n)`
  replaces the state (discarding whatever state the global generator had), and
  each call to `random.random()` advances the state deterministically and
  returns `k / 2 ^ 53` with `k < 2 ^ 53`, exactly the range and determinism of
  CPython's `genrand_res53`.

`random.choices` computes the cumulative weights with `accumulate` and indexes
the population by `bisect_right(cum_weights, random() * total, 0, hi)` with
`hi = len(population) - 1`; `random.uniform(a, b)` returns
`a + (b - a) * random()`.  Those two algorithms are embedded directly.
-/

/-- Model of CPython's salted string hash `hash(str)` (see the module comment):
a deterministic 64-bit mix of the per-process hash salt and the string's
characters. -/
def pyHash (salt : Nat) (s : String) : Nat :=
  s.data.foldl (fun h c => ((h ^^^ c.toNat) * 1099511628211) % 2 ^ 64)
    ((salt ^^^ 14695981039346656037) % 2 ^ 64)

/-- State of the (global) pseudo-random generator. -/
structure RandomState where
  state : Nat
deriving DecidableEq

/-- Advance the generator state (model of drawing one output from the Mersenne
Twister). -/
def mixState (s : Nat) : Nat :=
  (6364136223846793005 * s + 1442695040888963407) % 2 ^ 64

/-- Model of `random.random()`: a draw in `[0, 1)` of the form `k / 2 ^ 53`,
together with the advanced generator state. -/
def randomUnit (s : RandomState) : ℚ × RandomState :=
  let s2 := mixState s.state
  (((s2 % 2 ^ 53 : ℕ) : ℚ) / 2 ^ 53, ⟨s2⟩)

/-- Cumulative weights `list(accumulate([0.2, 0.35, 0.45]))` used by
`random.choices`. -/
def cum_weights : List ℚ := [1/5, 1/5 + 7/20, 1/5 + 7/20 + 9/20]

/-- Model of Python's `round(x, 4)` on the exact rational value: round to the
nearest multiple of `10 ^ (-4)` (Python's float `round` is round-half-even on
binary floats; the tie-breaking rule is irrelevant to the claims, which only
use that rounding stays within `[0.65, 0.95]`). -/
def round4 (x : ℚ) : ℚ := (round (x * 10000) : ℤ) / 10000

/-- Rubric entry of the behavior catalog `LABEL_MAP[behavior_id]`: per-score
text labels in two languages, keyed by the decimal rendering of the score. -/
structure BehaviorEntry where
  labels : List (String × String)
  labels_es : List (String × String)
deriving DecidableEq

/-- Result dictionary built by `generate_dummy_prediction`. -/
structure Prediction where
  behavior_id : String
  pred : Nat
  confidence : ℚ
  rubric_text : String
  rubric_text_es : String
deriving DecidableEq

/-- Embedding of `generate_dummy_prediction` (`main.py` lines 156-174).
`labelMap` is the behavior catalog `LABEL_MAP` (loaded at process start),
`hashSalt` the per-process string-hash salt, and `rng` the state the global
generator happens to have when the call is made; `random.seed` replaces that
state with one derived from `hash(f"{behavior_id}_{input_hash}")`. -/
def generate_dummy_prediction (labelMap : List (String × BehaviorEntry))
    (hashSalt : Nat) (rng : RandomState)
    (behavior_id input_hash : String) : Prediction :=
  let _ := rng
  let seeded : RandomState := ⟨pyHash hashSalt (behavior_id ++ "_" ++ input_hash)⟩
  let behavior := (List.lookup behavior_id labelMap).getD ⟨[], []⟩
  let d1 := randomUnit seeded
  let total := cum_weights.getLastD 0
  let pred := [0, 1, 2].getD
    ((cum_weights.take 2).takeWhile (fun c => decide (c ≤ d1.1 * total))).length 0
  let d2 := randomUnit d1.2
  let confidence := 13/20 + (19/20 - 13/20) * d2.1
  { behavior_id := behavior_id
    pred := pred
    confidence := round4 confidence
    rubric_text := (List.lookup (toString pred) behavior.labels).getD ""
    rubric_text_es := (List.lookup (toString pred) behavior.labels_es).getD "" }

/-! ### Job records and the Job Runner

Embedding of the job registry and of `run_inference` (`main.py` lines 177-276).

The job record is the dict created by `start_inference` (lines 467-479).  The
runner mutates it in a fixed sequence of `with jobs_lock:` blocks; each block
is one atomic update (that is the code's concurrency discipline: every
read-modify-write of the registry happens under the single `jobs_lock`).  The
runner's execution is modelled as the list of successive record states, one per
applied update; a failure point parameter says at which fallible statement of
the `try:` body an exception (with description `msg`, Python's `str(e)`) is
raised, whereupon the `except` block applies the final failed update.
-/

inductive Status where
  | pending
  | processing
  | completed
  | failed
deriving DecidableEq

/-- String stored in the `status` field of the job dict. -/
def statusString : Status → String
  | .pending => "pending"
  | .processing => "processing"
  | .completed => "completed"
  | .failed => "failed"

/-- Metadata sub-dictionary of the results payload (lines 234-238). -/
structure InferenceMetadata where
  model_version : String
  input_hash : String
  processed_at : String
deriving DecidableEq

/-- Results payload assembled at lines 228-239. -/
structure ResultsPayload where
  job_id : String
  input_id : String
  input_type : String
  behavior_id : String
  prediction : Prediction
  metadata : InferenceMetadata
deriving DecidableEq

/-- Job record dict (created at lines 468-479). -/
structure JobRecord where
  job_id : String
  input_id : String
  input_type : String
  behavior_id : String
  status : Status
  progress : Nat
  message : String
  error : Option String
  results : Option ResultsPayload
  created_at : String
deriving DecidableEq

/-- Record inserted by `start_inference` (lines 468-479). -/
def mkJobRecord (job_id input_id input_type behavior_id created_at : String) : JobRecord :=
  { job_id := job_id
    input_id := input_id
    input_type := input_type
    behavior_id := behavior_id
    status := .pending
    progress := 0
    message := "En cola..."
    error := none
    results := none
    created_at := created_at }

/-- Input artifact resolved for the job: video file bytes, or the parsed
skeleton JSON document. -/
inductive InputData where
  | video (bytes : List Nat)
  | skeleton (data : J)

/-- Fingerprint computation of `run_inference` (lines 196-201): file hash for
videos, structured-data hash for skeletons. -/
def inputHash : InputData → String
  | .video bytes => compute_file_hash bytes
  | .skeleton data => compute_data_hash data

/-- Fallible statements of the `try:` body and the step at which an exception
(with description `msg`) is raised, if any: hashing (lines 196-201, file 'I\x2fO'
or JSON parsing), the simulated stage loop (lines 212-216), persisting the
results document (lines 242-246) or the metadata document (lines 249-263).
`noFail` is the run in which no exception is raised. -/
inductive FailPoint where
  | noFail
  | hashFail (msg : String)
  | stageFail (k : Fin 5) (msg : String)
  | persistResultsFail (msg : String)
  | persistMetadataFail (msg : String)

/-- Description `str(e)` captured by the `except` block, when a failure occurs. -/
def failMsg : FailPoint → Option String
  | .noFail => none
  | .hashFail msg => some msg
  | .stageFail _ msg => some msg
  | .persistResultsFail msg => some msg
  | .persistMetadataFail msg => some msg

/-- Environment of one `run_inference` execution: process-level state (behavior
catalog, hash salt, global generator state, model availability), the resolved
input, the clock reading used for the timestamps, and the failure point. -/
structure RunEnv where
  labelMap : List (String × BehaviorEntry)
  hashSalt : Nat
  rngPrior : RandomState
  input : InputData
  now : String
  modelAvailable : Bool
  fail : FailPoint

/-- First lock block of `run_inference` (lines 190-193). -/
def startUpdate (r : JobRecord) : JobRecord :=
  { r with status := .processing, message := "Iniciando procesamiento...", progress := 5 }

/-- Stage lock block (lines 213-215): progress and message of one checkpoint. -/
def stageUpdate (pm : Nat × String) (r : JobRecord) : JobRecord :=
  { r with progress := pm.1, message := pm.2 }

/-- Final lock block of the `except` handler (lines 273-276). -/
def failUpdate (msg : String) (r : JobRecord) : JobRecord :=
  { r with status := .failed, error := some msg, message := "Error: " ++ msg }

/-- Final lock block of the success path (lines 266-270). -/
def completeUpdate (res : ResultsPayload) (r : JobRecord) : JobRecord :=
  { r with
    status := .completed
    progress := 100
    message := "Análisis completado"
    results := some res }

/-- Simulated processing checkpoints (lines 204-210). -/
def stageList (behavior_id : String) : List (Nat × String) :=
  [(15, "Cargando datos..."), (35, "Preprocesando..."),
   (55, "Extrayendo características..."), (75, "Evaluando " ++ behavior_id ++ "..."),
   (90, "Generando predicción...")]

/-- Record states produced by the stage loop (lines 212-216), one per executed
stage update. -/
def applyStages (r : JobRecord) : List (Nat × String) → List JobRecord
  | [] => []
  | pm :: rest =>
    let r2 := stageUpdate pm r
    r2 :: applyStages r2 rest

/-- Last element of a (possibly empty) update list, else the entry record. -/
def lastOr (r : JobRecord) (l : List JobRecord) : JobRecord := l.getLastD r

/-- Results payload assembled on the success path (lines 218-239). -/
def buildResults (env : RunEnv) (r : JobRecord) (input_hash : String) : ResultsPayload :=
  { job_id := r.job_id
    input_id := r.input_id
    input_type := r.input_type
    behavior_id := r.behavior_id
    prediction := generate_dummy_prediction env.labelMap env.hashSalt env.rngPrior
      r.behavior_id input_hash
    metadata :=
      { model_version := if env.modelAvailable then "diana-v1.0" else "dummy-v1.0"
        input_hash := input_hash
        processed_at := env.now } }

/-- Embedding of `run_inference` (lines 177-276): the sequence of record states
written to `jobs[job_id]`, one entry per lock-block update, starting from the
record `r0` found at entry.  An exception at the failure point jumps to the
`except` handler, which applies `failUpdate` and returns; nothing runs after
it. -/
def run_inference (env : RunEnv) (r0 : JobRecord) : List JobRecord :=
  let r1 := startUpdate r0
  match env.fail with
  | .hashFail msg => [r1, failUpdate msg r1]
  | .stageFail k msg =>
    let srecs := applyStages r1 ((stageList r0.behavior_id).take (k.val + 1))
    r1 :: srecs ++ [failUpdate msg (lastOr r1 srecs)]
  | .persistResultsFail msg =>
    let srecs := applyStages r1 (stageList r0.behavior_id)
    r1 :: srecs ++ [failUpdate msg (lastOr r1 srecs)]
  | .persistMetadataFail msg =>
    let srecs := applyStages r1 (stageList r0.behavior_id)
    r1 :: srecs ++ [failUpdate msg (lastOr r1 srecs)]
  | .noFail =>
    let srecs := applyStages r1 (stageList r0.behavior_id)
    let res := buildResults env r0 (inputHash env.input)
    r1 :: srecs ++ [completeUpdate res (lastOr r1 srecs)]

/-- Full observable history of the job record: the state created by
`start_inference` followed by every state written by `run_inference`. -/
def jobTrace (env : RunEnv) (r0 : JobRecord) : List JobRecord :=
  r0 :: run_inference env r0

/-- Record state after the runner has finished. -/
def finalRecord (env : RunEnv) (r0 : JobRecord) : JobRecord :=
  (jobTrace env r0).getLastD r0

/-- Transition relation of the job state machine as specified: `pending` only
starts, `processing` may repeat (stage updates keep the status), and the only
exits from `processing` are the terminal states `completed` and `failed`, which
admit no further transition. -/
def statusStep : Status → Status → Bool
  | .pending, .processing => true
  | .processing, .processing => true
  | .processing, .completed => true
  | .processing, .failed => true
  | _, _ => false

/-! ### The jobs registry and the read endpoints

The registry `jobs: dict` maps job ids to job-record dicts.  Python dict values
are references to mutable objects: `jobs.get(job_id)` (inside
`get_job_status` / `get_job_results`, lines 497-498 and 514-515) returns a
reference to the very record object that `run_inference` mutates in place, not
a copy.  The registry is therefore modelled as a heap of record objects
addressed by references, plus an index from job id to reference: `storeGet`
models `jobs.get(job_id)` (it yields the reference), `heapRead` models reading
the object a reference denotes at the current point in time, and `storeWrite`
models one in-place lock-block update `jobs[job_id][...] = ...` performed by
the runner. -/
structure JobStore where
  heap : List JobRecord
  index : List (String × Nat)

/-- Model of `jobs.get(job_id)`: the reference held in the dict, if present. -/
def storeGet (s : JobStore) (job_id : String) : Option Nat :=
  List.lookup job_id s.index

/-- Dereference at the current time: the record object the reference denotes
now. -/
def heapRead (s : JobStore) (ref : Nat) : Option JobRecord :=
  s.heap.get? ref

/-- One in-place mutation of the record object at `ref` (a lock-block update by
the runner). -/
def storeWrite (s : JobStore) (ref : Nat) (f : JobRecord → JobRecord) : JobStore :=
  match s.heap.get? ref with
  | some r => { s with heap := s.heap.set ref (f r) }
  | none => s

/-- Record currently denoted by the reference stored under `job_id`:
`jobs.get(job_id)` followed by reading the object. -/
def jobsGet (s : JobStore) (job_id : String) : Option JobRecord :=
  (storeGet s job_id).bind (heapRead s)

/-- Body of the `JobStatus` response (lines 503-508). -/
structure JobStatusResponse where
  status : Status
  progress : Nat
  message : String
  error : Option String
deriving DecidableEq

/-- Embedding of the status query `get_job_status` (lines 494-508): 404 for an
unknown job id, otherwise the four status fields of the record. -/
def get_job_status (s : JobStore) (job_id : String) :
    Except (Nat × String) JobStatusResponse :=
  match jobsGet s job_id with
  | none => .error (404, "Job not found")
  | some job => .ok ⟨job.status, job.progress, job.message, job.error⟩

/-- Embedding of the results query `get_job_results` (lines 511-543): 404 for
an unknown job id; 400 with the current status for an existing job that is not
`completed`; otherwise the stored results, falling back to the results document
on disk (`disk`), and 500 if neither exists. -/
def get_job_results (s : JobStore) (disk : Option ResultsPayload) (job_id : String) :
    Except (Nat × String) ResultsPayload :=
  match jobsGet s job_id with
  | none => .error (404, "Job not found")
  | some job =>
    if job.status ≠ Status.completed then
      .error (400, "Job not completed. Current status: " ++ statusString job.status)
    else
      match job.results with
      | some res => .ok res
      | none =>
        match disk with
        | some res => .ok res
        | none => .error (500, "Results not found")

/-! ### Lemmas about the Content Hasher -/

theorem toHex8_length (w : Nat) : (toHex8 w).length = 8 := rfl

theorem sha256HexChars_length (msg : List Nat) : (sha256HexChars msg).length = 64 := by
  simp [sha256HexChars, toHex8_length]

theorem hexChar_mem (n : Nat) : "0123456789abcdef".data.contains (hexChar n) = true := by
  unfold hexChar
  rcases Nat.lt_or_ge n 16 with h | h
  · interval_cases n <;> decide
  · rw [List.getD_eq_default]
    · decide
    · simpa using h

theorem toHex8_hex (w : Nat) :
    ∀ c ∈ toHex8 w, "0123456789abcdef".data.contains c = true := by
  intro c hc
  simp only [toHex8, List.mem_cons, List.not_mem_nil, or_false] at hc
  rcases hc with h | h | h | h | h | h | h | h <;> exact h ▸ hexChar_mem _

theorem sha256HexChars_hex (msg : List Nat) :
    ∀ c ∈ sha256HexChars msg, "0123456789abcdef".data.contains c = true := by
  intro c hc
  simp only [sha256HexChars, List.mem_append] at hc
  rcases hc with ((((((h | h) | h) | h) | h) | h) | h) | h <;> exact toHex8_hex _ _ h

/-- Claim C10: every fingerprint produced by the Content Hasher — by
`compute_file_hash` on file bytes or by `compute_data_hash` on a structured
document — is a truncated hex string of exactly 16 hexadecimal characters. -/
theorem C10_fingerprint_length (fileBytes : List Nat) (data : J) :
    (compute_file_hash fileBytes).length = 16 ∧
      (compute_file_hash fileBytes).data.all
        (fun c => "0123456789abcdef".data.contains c) = true ∧
      (compute_data_hash data).length = 16 ∧
      (compute_data_hash data).data.all
        (fun c => "0123456789abcdef".data.contains c) = true := by
  refine ⟨?_, ?_, ?_, ?_⟩
  · show (String.mk _).length = 16
    simp [compute_file_hash, String.length, sha256HexChars_length]
  · show (String.mk _).data.all _ = true
    rw [List.all_eq_true]
    intro c hc
    exact sha256HexChars_hex _ c (List.take_subset _ _ hc)
  · show (String.mk _).length = 16
    simp [compute_data_hash, String.length, sha256HexChars_length]
  · show (String.mk _).data.all _ = true
    rw [List.all_eq_true]
    intro c hc
    exact sha256HexChars_hex _ c (List.take_subset _ _ hc)

/-! ### Key-order invariance of `compute_data_hash` (claim C8)

`KeyReorder d1 d2` is the formalization of the claim's hypothesis: `d1` and
`d2` are semantically identical structured documents that differ only in the
ordering of mapping keys.  Atoms must be equal, arrays must agree pointwise
(arrays are ordered), and a mapping of `d2` must be a permutation of the
corresponding mapping of `d1` (same key/value pairs, values again related).
Mappings come from Python dicts, whose keys are necessarily distinct, which the
relation records as `NodupKeys`. -/
def NodupKeys (fs : List (String × J)) : Prop := (fs.map Prod.fst).Nodup

mutual

def KeyReorder : J → J → Prop
  | .null, .null => True
  | .bool b1, .bool b2 => b1 = b2
  | .num n1, .num n2 => n1 = n2
  | .str s1, .str s2 => s1 = s2
  | .arr xs, .arr ys => KeyReorderList xs ys
  | .obj fs1, .obj fs2 =>
    NodupKeys fs1 ∧ ∃ mid, KeyReorderFields fs1 mid ∧ mid.Perm fs2
  | _, _ => False

def KeyReorderList : List J → List J → Prop
  | [], [] => True
  | x :: xs, y :: ys => KeyReorder x y ∧ KeyReorderList xs ys
  | _, _ => False

def KeyReorderFields : List (String × J) → List (String × J) → Prop
  | [], [] => True
  | (k1, v1) :: fs1, (k2, v2) :: fs2 => k1 = k2 ∧ KeyReorder v1 v2 ∧ KeyReorderFields fs1 fs2
  | _, _ => False

end

/-- Strict key ordering: used to show sorted field lists with distinct keys are
unique. -/
def keyLT (p q : String × J) : Prop := p.1 < q.1

instance : IsAntisymm (String × J) keyLT :=
  ⟨fun _ _ h1 h2 => absurd (lt_trans h1 h2) (lt_irrefl _)⟩

theorem sortKeys_perm (l : List (String × J)) : (sortKeys l).Perm l :=
  List.perm_insertionSort _ _

theorem sortKeys_sorted (l : List (String × J)) : List.Sorted keyLE (sortKeys l) :=
  List.sorted_insertionSort _ _

theorem sorted_keyLT_of_nodup {l : List (String × J)}
    (hs : List.Sorted keyLE l) (hn : NodupKeys l) : List.Sorted keyLT l := by
  have hne : l.Pairwise (fun p q : String × J => p.1 ≠ q.1) := List.pairwise_map.1 hn
  exact (hs.and hne).imp fun h => lt_of_le_of_ne h.1 h.2

theorem nodupKeys_of_perm {l1 l2 : List (String × J)} (hp : l1.Perm l2)
    (hn : NodupKeys l1) : NodupKeys l2 :=
  ((hp.map Prod.fst).nodup_iff).1 hn

/-- Sorting by key is invariant under permutation of fields with distinct keys. -/
theorem sortKeys_eq_of_perm {l1 l2 : List (String × J)} (hp : l1.Perm l2)
    (hn : NodupKeys l1) : sortKeys l1 = sortKeys l2 :=
  List.eq_of_perm_of_sorted
    ((sortKeys_perm l1).trans (hp.trans (sortKeys_perm l2).symm))
    (sorted_keyLT_of_nodup (sortKeys_sorted l1)
      (nodupKeys_of_perm (sortKeys_perm l1).symm hn))
    (sorted_keyLT_of_nodup (sortKeys_sorted l2)
      (nodupKeys_of_perm (hp.trans (sortKeys_perm l2).symm) hn))

theorem canonFields_eq_map (fs : List (String × J)) :
    canonFields fs = fs.map fun p => (p.1, canon p.2) := by
  induction fs with
  | nil => rfl
  | cons p fs ih => cases p; simp [canonFields, ih]

theorem map_fst_canonFields (fs : List (String × J)) :
    (canonFields fs).map Prod.fst = fs.map Prod.fst := by
  rw [canonFields_eq_map, List.map_map]
  rfl

mutual

theorem canon_eq_of_keyReorder : ∀ d1 d2, KeyReorder d1 d2 → canon d1 = canon d2
  | .null, .null, _ => rfl
  | .bool _, .bool _, h => by
    rw [show KeyReorder _ _ = _ from rfl] at h
    rw [h]
  | .num _, .num _, h => by
    rw [show KeyReorder _ _ = _ from rfl] at h
    rw [h]
  | .str _, .str _, h => by
    rw [show KeyReorder _ _ = _ from rfl] at h
    rw [h]
  | .arr xs, .arr ys, h => by
    have hl : KeyReorderList xs ys := h
    have := canonList_eq_of_keyReorder xs ys hl
    simp only [canon, this]
  | .obj fs1, .obj fs2, h => by
    obtain ⟨hnd, mid, hf, hperm⟩ := (h : NodupKeys fs1 ∧ _)
    have h1 : canonFields fs1 = canonFields mid := canonFields_eq_of_keyReorder fs1 mid hf
    have h2 : (canonFields mid).Perm (canonFields fs2) := by
      rw [canonFields_eq_map, canonFields_eq_map]
      exact hperm.map _
    have hnd1 : NodupKeys (canonFields fs1) := by
      unfold NodupKeys
      rw [map_fst_canonFields]
      exact hnd
    simp only [canon]
    rw [h1, sortKeys_eq_of_perm h2 (h1 ▸ hnd1)]

theorem canonList_eq_of_keyReorder :
    ∀ l1 l2, KeyReorderList l1 l2 → canonList l1 = canonList l2
  | [], [], _ => rfl
  | x :: xs, y :: ys, h => by
    obtain ⟨h1, h2⟩ := (h : KeyReorder x y ∧ _)
    simp only [canonList, canon_eq_of_keyReorder x y h1, canonList_eq_of_keyReorder xs ys h2]

theorem canonFields_eq_of_keyReorder :
    ∀ f1 f2, KeyReorderFields f1 f2 → canonFields f1 = canonFields f2
  | [], [], _ => rfl
  | (k1, v1) :: fs1, (k2, v2) :: fs2, h => by
    obtain ⟨hk, hv, hrest⟩ := (h : k1 = k2 ∧ _ ∧ _)
    simp only [canonFields, hk, canon_eq_of_keyReorder v1 v2 hv,
      canonFields_eq_of_keyReorder fs1 fs2 hrest]

end

/-- Claim C8: for every pair of structured documents that are semantically
identical but differ in mapping key ordering, `compute_data_hash` returns the
same fingerprint (the keys are sorted during serialization, so the digested
text is identical). -/
theorem C8_key_order_invariance (d1 d2 : J) (h : KeyReorder d1 d2) :
    compute_data_hash d1 = compute_data_hash d2 := by
  unfold compute_data_hash
  rw [canon_eq_of_keyReorder d1 d2 h]

/-- Witness for C8: the two-key document `{"b": 2, "a": 1}` against
`{"a": 1, "b": 2}` — same mapping, keys in a different order — fingerprints
identically. -/
theorem C8_key_order_invariance_witness :
    KeyReorder (J.obj [("b", J.num 2), ("a", J.num 1)])
        (J.obj [("a", J.num 1), ("b", J.num 2)]) ∧
      compute_data_hash (J.obj [("b", J.num 2), ("a", J.num 1)]) =
        compute_data_hash (J.obj [("a", J.num 1), ("b", J.num 2)]) := by
  have h : KeyReorder (J.obj [("b", J.num 2), ("a", J.num 1)])
      (J.obj [("a", J.num 1), ("b", J.num 2)]) := by
    refine ⟨show ([("b", J.num 2), ("a", J.num 1)].map Prod.fst).Nodup by decide,
      [("b", J.num 2), ("a", J.num 1)], ?_, List.Perm.swap _ _ _⟩
    exact ⟨rfl, rfl, rfl, rfl, trivial⟩
  exact ⟨h, C8_key_order_invariance _ _ h⟩

/-! ### Lemmas about the Prediction Generator -/

theorem randomUnit_nonneg (s : RandomState) : 0 ≤ (randomUnit s).1 := by
  unfold randomUnit
  positivity

theorem randomUnit_lt_one (s : RandomState) : (randomUnit s).1 < 1 := by
  unfold randomUnit
  rw [div_lt_one (by positivity)]
  exact_mod_cast Nat.mod_lt _ (by norm_num)

theorem round4_bounds {x : ℚ} (h1 : 13/20 ≤ x) (h2 : x < 19/20) :
    13/20 ≤ round4 x ∧ round4 x ≤ 19/20 := by
  unfold round4
  have hlo : (6500 : ℤ) ≤ round (x * 10000) := by
    rw [round_eq]
    have : (6500 : ℚ) + 1/2 ≤ x * 10000 + 1/2 := by linarith
    calc (6500 : ℤ) = ⌊(6500 : ℚ) + 1/2⌋ := by norm_num
      _ ≤ ⌊x * 10000 + 1/2⌋ := Int.floor_le_floor this
  have hhi : round (x * 10000) ≤ 9500 := by
    rw [round_eq]
    have : x * 10000 + 1/2 ≤ (9500 : ℚ) + 1/2 := by linarith
    calc ⌊x * 10000 + 1/2⌋ ≤ ⌊(9500 : ℚ) + 1/2⌋ := Int.floor_le_floor this
      _ = 9500 := by norm_num
  constructor
  · have : (6500 : ℚ) ≤ (round (x * 10000) : ℤ) := by exact_mod_cast hlo
    linarith
  · have : ((round (x * 10000) : ℤ) : ℚ) ≤ 9500 := by exact_mod_cast hhi
    linarith

/-- Unfolded form of the score draw. -/
theorem gdp_pred_eq (labelMap : List (String × BehaviorEntry)) (hashSalt : Nat)
    (rng : RandomState) (behavior_id input_hash : String) :
    (generate_dummy_prediction labelMap hashSalt rng behavior_id input_hash).pred =
      [0, 1, 2].getD
        ((cum_weights.take 2).takeWhile
          (fun c => decide (c ≤ (randomUnit
            ⟨pyHash hashSalt (behavior_id ++ "_" ++ input_hash)⟩).1 *
              cum_weights.getLastD 0))).length 0 := rfl

/-- Unfolded form of the confidence draw. -/
theorem gdp_confidence_eq (labelMap : List (String × BehaviorEntry)) (hashSalt : Nat)
    (rng : RandomState) (behavior_id input_hash : String) :
    (generate_dummy_prediction labelMap hashSalt rng behavior_id input_hash).confidence =
      round4 (13/20 + (19/20 - 13/20) * (randomUnit (randomUnit
        ⟨pyHash hashSalt (behavior_id ++ "_" ++ input_hash)⟩).2).1) := rfl

theorem getD012 (i : Nat) :
    [0, 1, 2].getD i 0 = 0 ∨ [0, 1, 2].getD i 0 = 1 ∨ [0, 1, 2].getD i 0 = 2 := by
  match i with
  | 0 => exact Or.inl rfl
  | 1 => exact Or.inr (Or.inl rfl)
  | 2 => exact Or.inr (Or.inr rfl)
  | n + 3 => exact Or.inl (by simp [List.getD])

theorem gdp_pred_mem (labelMap : List (String × BehaviorEntry)) (hashSalt : Nat)
    (rng : RandomState) (behavior_id input_hash : String) :
    (generate_dummy_prediction labelMap hashSalt rng behavior_id input_hash).pred = 0 ∨
      (generate_dummy_prediction labelMap hashSalt rng behavior_id input_hash).pred = 1 ∨
      (generate_dummy_prediction labelMap hashSalt rng behavior_id input_hash).pred = 2 := by
  rw [gdp_pred_eq]
  exact getD012 _

theorem gdp_confidence_bounds (labelMap : List (String × BehaviorEntry)) (hashSalt : Nat)
    (rng : RandomState) (behavior_id input_hash : String) :
    13/20 ≤ (generate_dummy_prediction labelMap hashSalt rng behavior_id input_hash).confidence ∧
      (generate_dummy_prediction labelMap hashSalt rng behavior_id input_hash).confidence ≤
        19/20 := by
  rw [gdp_confidence_eq]
  set u := (randomUnit (randomUnit
    ⟨pyHash hashSalt (behavior_id ++ "_" ++ input_hash)⟩).2).1 with hu
  have h0 : 0 ≤ u := randomUnit_nonneg _
  have h1 : u < 1 := randomUnit_lt_one _
  exact round4_bounds (by linarith) (by linarith)

/-- Claim C1 (amended): for a fixed per-process string-hash salt, the
Prediction Generator is deterministic — the output depends only on
`(behavior_id, input_hash)` and in particular is independent of whatever state
the global pseudo-random generator had before the call, because `random.seed`
replaces that state.  Repeated calls with the same pair therefore return
bit-identical output within a process (across process invocations the
per-process salt, and with it the seed, varies). -/
theorem C1_fixed_salt_determinism (labelMap : List (String × BehaviorEntry))
    (hashSalt : Nat) (rng1 rng2 : RandomState) (behavior_id input_hash : String) :
    generate_dummy_prediction labelMap hashSalt rng1 behavior_id input_hash =
      generate_dummy_prediction labelMap hashSalt rng2 behavior_id input_hash := rfl

/-- Index selected by the `bisect_right` of `random.choices` on the cumulative
weights `[0.2, 0.55]` (with `hi = 2`), characterized by the two thresholds. -/
theorem choices_threshold (u : ℚ) :
    [0, 1, 2].getD
        ((List.takeWhile (fun c => decide (c ≤ u)) [(1:ℚ)/5, 1/5 + 7/20]).length) 0 =
      (if u < 1/5 then 0 else if u < 11/20 then 1 else 2) := by
  rcases lt_or_le u (1/5) with hA | h1
  · have d1 : decide ((1:ℚ)/5 ≤ u) = false := decide_eq_false (not_le.2 hA)
    rw [if_pos hA]
    simp only [List.takeWhile, d1]
    rfl
  · rw [if_neg (not_lt.2 h1)]
    have d1 : decide ((1:ℚ)/5 ≤ u) = true := decide_eq_true h1
    rcases lt_or_le u (11/20) with hB | h2
    · have d2 : decide ((1:ℚ)/5 + 7/20 ≤ u) = false :=
        decide_eq_false (by intro hc; linarith)
      rw [if_pos hB]
      simp only [List.takeWhile, d1, d2]
      rfl
    · have d2 : decide ((1:ℚ)/5 + 7/20 ≤ u) = true := decide_eq_true (by linarith)
      rw [if_neg (not_lt.2 h2)]
      simp only [List.takeWhile, d1, d2]
      rfl

/-- Claim C5: the ordinal score is always in `{0, 1, 2}`, split at the
cumulative thresholds `0.2` and `0.55` of the uniform draw (the categorical
weights `0.20 / 0.35 / 0.45`), and the confidence — uniform on `[0.65, 0.95)`
rounded to 4 decimal places — always lies in `[0.65, 0.95]`. -/
theorem C5_score_confidence (labelMap : List (String × BehaviorEntry))
    (hashSalt : Nat) (rng : RandomState) (behavior_id input_hash : String) :
    ((generate_dummy_prediction labelMap hashSalt rng behavior_id input_hash).pred = 0 ∨
      (generate_dummy_prediction labelMap hashSalt rng behavior_id input_hash).pred = 1 ∨
      (generate_dummy_prediction labelMap hashSalt rng behavior_id input_hash).pred = 2) ∧
    (13/20 ≤ (generate_dummy_prediction labelMap hashSalt rng behavior_id input_hash).confidence ∧
      (generate_dummy_prediction labelMap hashSalt rng behavior_id input_hash).confidence ≤ 19/20) ∧
    (generate_dummy_prediction labelMap hashSalt rng behavior_id input_hash).pred =
      (if (randomUnit ⟨pyHash hashSalt (behavior_id ++ "_" ++ input_hash)⟩).1 < 1/5 then 0
       else if (randomUnit ⟨pyHash hashSalt (behavior_id ++ "_" ++ input_hash)⟩).1 < 11/20 then 1
       else 2) := by
  refine ⟨gdp_pred_mem _ _ _ _ _, gdp_confidence_bounds _ _ _ _ _, ?_⟩
  rw [gdp_pred_eq]
  have hmul : ∀ c : ℚ, (c ≤ (randomUnit ⟨pyHash hashSalt
      (behavior_id ++ "_" ++ input_hash)⟩).1 * cum_weights.getLastD 0) =
      (c ≤ (randomUnit ⟨pyHash hashSalt (behavior_id ++ "_" ++ input_hash)⟩).1) := by
    intro c
    have : (randomUnit ⟨pyHash hashSalt (behavior_id ++ "_" ++ input_hash)⟩).1 *
        cum_weights.getLastD 0 =
        (randomUnit ⟨pyHash hashSalt (behavior_id ++ "_" ++ input_hash)⟩).1 := by
      norm_num [cum_weights]
    rw [this]
  simp only [show cum_weights.take 2 = [1/5, 1/5 + 7/20] from rfl, hmul]
  exact choices_threshold _

/-- Claim C9: the Prediction Generator is total and never fails.  For EVERY
behavior identifier — present in the catalog or not — and every fingerprint,
the returned prediction has a valid score/confidence pair; a missing catalog
entry yields empty rubric strings in both languages, and a present catalog
entry that lacks the per-score text for the drawn score likewise yields an
empty rubric string (per language), rather than an error. -/
theorem C9_generator_never_fails (labelMap : List (String × BehaviorEntry))
    (hashSalt : Nat) (rng : RandomState) (behavior_id input_hash : String) :
    ((generate_dummy_prediction labelMap hashSalt rng behavior_id input_hash).pred = 0 ∨
      (generate_dummy_prediction labelMap hashSalt rng behavior_id input_hash).pred = 1 ∨
      (generate_dummy_prediction labelMap hashSalt rng behavior_id input_hash).pred = 2) ∧
    (13/20 ≤ (generate_dummy_prediction labelMap hashSalt rng behavior_id
        input_hash).confidence ∧
      (generate_dummy_prediction labelMap hashSalt rng behavior_id
        input_hash).confidence ≤ 19/20) ∧
    (List.lookup behavior_id labelMap = none →
      (generate_dummy_prediction labelMap hashSalt rng behavior_id
        input_hash).rubric_text = "" ∧
      (generate_dummy_prediction labelMap hashSalt rng behavior_id
        input_hash).rubric_text_es = "") ∧
    (∀ entry, List.lookup behavior_id labelMap = some entry →
      (List.lookup (toString (generate_dummy_prediction labelMap hashSalt rng
          behavior_id input_hash).pred) entry.labels = none →
        (generate_dummy_prediction labelMap hashSalt rng behavior_id
          input_hash).rubric_text = "") ∧
      (List.lookup (toString (generate_dummy_prediction labelMap hashSalt rng
          behavior_id input_hash).pred) entry.labels_es = none →
        (generate_dummy_prediction labelMap hashSalt rng behavior_id
          input_hash).rubric_text_es = "")) := by
  have hrt : (generate_dummy_prediction labelMap hashSalt rng behavior_id
      input_hash).rubric_text =
      (List.lookup (toString (generate_dummy_prediction labelMap hashSalt rng
        behavior_id input_hash).pred)
        (((List.lookup behavior_id labelMap).getD ⟨[], []⟩).labels)).getD "" := rfl
  have hrtes : (generate_dummy_prediction labelMap hashSalt rng behavior_id
      input_hash).rubric_text_es =
      (List.lookup (toString (generate_dummy_prediction labelMap hashSalt rng
        behavior_id input_hash).pred)
        (((List.lookup behavior_id labelMap).getD ⟨[], []⟩).labels_es)).getD "" := rfl
  refine ⟨gdp_pred_mem _ _ _ _ _, gdp_confidence_bounds _ _ _ _ _, ?_, ?_⟩
  · intro h
    rw [h] at hrt hrtes
    exact ⟨by simpa using hrt, by simpa using hrtes⟩
  · intro entry h
    rw [h] at hrt hrtes
    simp only [Option.getD_some] at hrt hrtes
    constructor
    · intro hl
      rw [hl] at hrt
      simpa using hrt
    · intro hl
      rw [hl] at hrtes
      simpa using hrtes

/-- Witness for C9, exercising both fallbacks: with the empty catalog, `"B1"`
has no entry and both rubric strings are empty while the score/confidence pair
is in range; with a catalog whose `"B1"` entry has no per-score labels at all,
the entry is found but the drawn score's text is missing, and both rubric
strings are again empty. -/
theorem C9_generator_never_fails_witness :
    ((generate_dummy_prediction [] 0 ⟨0⟩ "B1" "abc").pred = 0 ∨
      (generate_dummy_prediction [] 0 ⟨0⟩ "B1" "abc").pred = 1 ∨
      (generate_dummy_prediction [] 0 ⟨0⟩ "B1" "abc").pred = 2) ∧
    (13/20 ≤ (generate_dummy_prediction [] 0 ⟨0⟩ "B1" "abc").confidence ∧
      (generate_dummy_prediction [] 0 ⟨0⟩ "B1" "abc").confidence ≤ 19/20) ∧
    List.lookup "B1" ([] : List (String × BehaviorEntry)) = none ∧
    (generate_dummy_prediction [] 0 ⟨0⟩ "B1" "abc").rubric_text = "" ∧
    (generate_dummy_prediction [] 0 ⟨0⟩ "B1" "abc").rubric_text_es = "" ∧
    List.lookup "B1" [("B1", BehaviorEntry.mk [] [])] = some (BehaviorEntry.mk [] []) ∧
    (generate_dummy_prediction [("B1", BehaviorEntry.mk [] [])] 0 ⟨0⟩
      "B1" "abc").rubric_text = "" ∧
    (generate_dummy_prediction [("B1", BehaviorEntry.mk [] [])] 0 ⟨0⟩
      "B1" "abc").rubric_text_es = "" :=
  ⟨(C9_generator_never_fails [] 0 ⟨0⟩ "B1" "abc").1,
   (C9_generator_never_fails [] 0 ⟨0⟩ "B1" "abc").2.1,
   rfl,
   ((C9_generator_never_fails [] 0 ⟨0⟩ "B1" "abc").2.2.1 rfl).1,
   ((C9_generator_never_fails [] 0 ⟨0⟩ "B1" "abc").2.2.1 rfl).2,
   rfl,
   (((C9_generator_never_fails [("B1", BehaviorEntry.mk [] [])] 0 ⟨0⟩ "B1" "abc").2.2.2
     (BehaviorEntry.mk [] []) rfl).1 rfl),
   (((C9_generator_never_fails [("B1", BehaviorEntry.mk [] [])] 0 ⟨0⟩ "B1" "abc").2.2.2
     (BehaviorEntry.mk [] []) rfl).2 rfl)⟩

/-- Claim C2: over the whole observable history of a job — creation in
`pending` and every update applied by the Job Runner, for every failure point —
consecutive statuses follow the state machine
`pending → processing → \x7bcompleted, failed\x7d` (with `completed` and `failed`
admitting no further transition), the progress values are non-decreasing, the
final progress is `100` exactly when the job completed successfully, and a
successful run passes exactly through the checkpoints
`0, 5, 15, 35, 55, 75, 90, 100`. -/
theorem C2_lifecycle (env : RunEnv)
    (job_id input_id input_type behavior_id created_at : String) :
    (jobTrace env (mkJobRecord job_id input_id input_type behavior_id
        created_at)).head?.map (fun r => r.status) = some Status.pending ∧
    List.Chain' (fun a b => statusStep a b = true)
      ((jobTrace env (mkJobRecord job_id input_id input_type behavior_id
        created_at)).map fun r => r.status) ∧
    List.Chain' (fun a b => a ≤ b)
      ((jobTrace env (mkJobRecord job_id input_id input_type behavior_id
        created_at)).map fun r => r.progress) ∧
    ((finalRecord env (mkJobRecord job_id input_id input_type behavior_id
        created_at)).progress = 100 ↔
      (finalRecord env (mkJobRecord job_id input_id input_type behavior_id
        created_at)).status = Status.completed) ∧
    ((finalRecord env (mkJobRecord job_id input_id input_type behavior_id
        created_at)).status = Status.completed →
      (jobTrace env (mkJobRecord job_id input_id input_type behavior_id
        created_at)).map (fun r => r.progress) = [0, 5, 15, 35, 55, 75, 90, 100]) := by
  rcases env with ⟨lm, salt, rng, input, now, avail, fail⟩
  rcases fail with _ | msg | ⟨⟨kv, hk⟩, msg⟩ | msg | msg
  case noFail =>
    refine ⟨rfl, ?_, ?_, ?_, ?_⟩ <;>
      simp [jobTrace, run_inference, applyStages, stageList, startUpdate, stageUpdate,
        failUpdate, completeUpdate, finalRecord, lastOr, mkJobRecord, statusStep,
        List.chain'_cons]
  case hashFail =>
    refine ⟨rfl, ?_, ?_, ?_, ?_⟩ <;>
      simp [jobTrace, run_inference, applyStages, stageList, startUpdate, stageUpdate,
        failUpdate, completeUpdate, finalRecord, lastOr, mkJobRecord, statusStep,
        List.chain'_cons]
  case stageFail.mk =>
    interval_cases kv <;>
    · refine ⟨rfl, ?_, ?_, ?_, ?_⟩ <;>
        simp [jobTrace, run_inference, applyStages, stageList, startUpdate, stageUpdate,
          failUpdate, completeUpdate, finalRecord, lastOr, mkJobRecord, statusStep,
          List.chain'_cons]
  case persistResultsFail =>
    refine ⟨rfl, ?_, ?_, ?_, ?_⟩ <;>
      simp [jobTrace, run_inference, applyStages, stageList, startUpdate, stageUpdate,
        failUpdate, completeUpdate, finalRecord, lastOr, mkJobRecord, statusStep,
        List.chain'_cons]
  case persistMetadataFail =>
    refine ⟨rfl, ?_, ?_, ?_, ?_⟩ <;>
      simp [jobTrace, run_inference, applyStages, stageList, startUpdate, stageUpdate,
        failUpdate, completeUpdate, finalRecord, lastOr, mkJobRecord, statusStep,
        List.chain'_cons]

/-- Witness for C2: the success run of a concrete job passes exactly through
the checkpoint progress sequence ending at 100. -/
theorem C2_lifecycle_witness :
    (jobTrace ⟨[], 0, ⟨0⟩, .video [], "t", false, .noFail⟩
        (mkJobRecord "j" "i" "video" "b" "t")).map (fun r => r.progress) =
      [0, 5, 15, 35, 55, 75, 90, 100] :=
  (C2_lifecycle ⟨[], 0, ⟨0⟩, .video [], "t", false, .noFail⟩
    "j" "i" "video" "b" "t").2.2.2.2 rfl

/-- Claim C3 (amended): on any exception during the pipeline — hashing, staged
progress, prediction, persistence — the `except` handler transitions the job
record to `failed` with the failure description `str(e)` captured verbatim in
the `error` field (hence non-empty exactly when the exception's description is
non-empty, see the counterexample for an empty description), and no further
state change is applied: the failed state is the last entry of the job's
history. -/
theorem C3_failure_capture (env : RunEnv)
    (job_id input_id input_type behavior_id created_at msg : String)
    (h : failMsg env.fail = some msg) :
    (finalRecord env (mkJobRecord job_id input_id input_type behavior_id
        created_at)).status = Status.failed ∧
    (finalRecord env (mkJobRecord job_id input_id input_type behavior_id
        created_at)).error = some msg ∧
    (finalRecord env (mkJobRecord job_id input_id input_type behavior_id
        created_at)).message = "Error: " ++ msg ∧
    (∀ r ∈ jobTrace env (mkJobRecord job_id input_id input_type behavior_id created_at),
      r.status = Status.failed →
        r = finalRecord env (mkJobRecord job_id input_id input_type behavior_id
          created_at)) := by
  rcases env with ⟨lm, salt, rng, input, now, avail, fail⟩
  rcases fail with _ | m | ⟨⟨kv, hk⟩, m⟩ | m | m
  case noFail => simp [failMsg] at h
  case hashFail =>
    simp only [failMsg, Option.some.injEq] at h
    subst h
    refine ⟨?_, ?_, ?_, ?_⟩ <;>
      simp [jobTrace, run_inference, applyStages, stageList, startUpdate, stageUpdate,
        failUpdate, completeUpdate, finalRecord, lastOr, mkJobRecord]
  case stageFail.mk =>
    simp only [failMsg, Option.some.injEq] at h
    subst h
    interval_cases kv <;>
    · refine ⟨?_, ?_, ?_, ?_⟩ <;>
        simp [jobTrace, run_inference, applyStages, stageList, startUpdate, stageUpdate,
          failUpdate, completeUpdate, finalRecord, lastOr, mkJobRecord]
  case persistResultsFail =>
    simp only [failMsg, Option.some.injEq] at h
    subst h
    refine ⟨?_, ?_, ?_, ?_⟩ <;>
      simp [jobTrace, run_inference, applyStages, stageList, startUpdate, stageUpdate,
        failUpdate, completeUpdate, finalRecord, lastOr, mkJobRecord]
  case persistMetadataFail =>
    simp only [failMsg, Option.some.injEq] at h
    subst h
    refine ⟨?_, ?_, ?_, ?_⟩ <;>
      simp [jobTrace, run_inference, applyStages, stageList, startUpdate, stageUpdate,
        failUpdate, completeUpdate, finalRecord, lastOr, mkJobRecord]

/-- Witness for C3: a hashing failure with description `"boom"` leaves the
concrete job `failed` with exactly that error, as its last state. -/
theorem C3_failure_capture_witness :
    (finalRecord ⟨[], 0, ⟨0⟩, .video [], "t", false, .hashFail "boom"⟩
        (mkJobRecord "j" "i" "video" "b" "t")).status = Status.failed ∧
    (finalRecord ⟨[], 0, ⟨0⟩, .video [], "t", false, .hashFail "boom"⟩
        (mkJobRecord "j" "i" "video" "b" "t")).error = some "boom" ∧
    (finalRecord ⟨[], 0, ⟨0⟩, .video [], "t", false, .hashFail "boom"⟩
        (mkJobRecord "j" "i" "video" "b" "t")).message = "Error: " ++ "boom" ∧
    (∀ r ∈ jobTrace ⟨[], 0, ⟨0⟩, .video [], "t", false, .hashFail "boom"⟩
        (mkJobRecord "j" "i" "video" "b" "t"),
      r.status = Status.failed →
        r = finalRecord ⟨[], 0, ⟨0⟩, .video [], "t", false, .hashFail "boom"⟩
          (mkJobRecord "j" "i" "video" "b" "t")) :=
  C3_failure_capture ⟨[], 0, ⟨0⟩, .video [], "t", false, .hashFail "boom"⟩
    "j" "i" "video" "b" "t" "boom" rfl

/-- Counterexample for C3 as frozen: the failure description is captured
verbatim, so an exception whose description is the empty string (Python allows
`raise Exception("")`, and `str(e)` is then `""`) leaves the job `failed` with
an EMPTY error description — the claim's "non-empty error description" does not
hold for every failure. -/
theorem C3_counterexample :
    (finalRecord ⟨[], 0, ⟨0⟩, .video [], "t", false, .hashFail ""⟩
        (mkJobRecord "j" "i" "video" "b" "t")).status = Status.failed ∧
    (finalRecord ⟨[], 0, ⟨0⟩, .video [], "t", false, .hashFail ""⟩
        (mkJobRecord "j" "i" "video" "b" "t")).error = some "" ∧
    ∃ s, (finalRecord ⟨[], 0, ⟨0⟩, .video [], "t", false, .hashFail ""⟩
        (mkJobRecord "j" "i" "video" "b" "t")).error = some s ∧ s.length = 0 :=
  ⟨rfl, rfl, "", rfl, rfl⟩

/-- Claim C4: at every point of a job record's lifetime — from its creation by
`start_inference` through every update applied by `run_inference`, at every
failure point — the `results` field is populated if and only if the status is
`completed`, and the `error` field is populated if and only if the status is
`failed`. -/
theorem C4_results_error_iff (env : RunEnv)
    (job_id input_id input_type behavior_id created_at : String) (r : JobRecord)
    (hr : r ∈ jobTrace env (mkJobRecord job_id input_id input_type behavior_id
      created_at)) :
    (r.results.isSome ↔ r.status = Status.completed) ∧
    (r.error.isSome ↔ r.status = Status.failed) := by
  rcases env with ⟨lm, salt, rng, input, now, avail, fail⟩
  rcases fail with _ | m | ⟨⟨kv, hk⟩, m⟩ | m | m
  case noFail =>
    simp only [jobTrace, run_inference, applyStages, stageList, startUpdate, stageUpdate,
      failUpdate, completeUpdate, mkJobRecord, List.cons_append, List.nil_append] at hr
    fin_cases hr <;> simp [lastOr, List.getLastD]
  case hashFail =>
    simp only [jobTrace, run_inference, applyStages, stageList, startUpdate, stageUpdate,
      failUpdate, completeUpdate, mkJobRecord, List.cons_append, List.nil_append] at hr
    fin_cases hr <;> simp [lastOr, List.getLastD]
  case stageFail.mk =>
    interval_cases kv <;>
    · simp only [jobTrace, run_inference, applyStages, stageList, startUpdate, stageUpdate,
        failUpdate, completeUpdate, mkJobRecord, List.cons_append, List.nil_append] at hr
      fin_cases hr <;> simp [lastOr, List.getLastD]
  case persistResultsFail =>
    simp only [jobTrace, run_inference, applyStages, stageList, startUpdate, stageUpdate,
      failUpdate, completeUpdate, mkJobRecord, List.cons_append, List.nil_append] at hr
    fin_cases hr <;> simp [lastOr, List.getLastD]
  case persistMetadataFail =>
    simp only [jobTrace, run_inference, applyStages, stageList, startUpdate, stageUpdate,
      failUpdate, completeUpdate, mkJobRecord, List.cons_append, List.nil_append] at hr
    fin_cases hr <;> simp [lastOr, List.getLastD]

/-- Witness for C4: the just-created record of a concrete job (the head of its
history) satisfies both populated-iff equivalences. -/
theorem C4_results_error_iff_witness :
    ((mkJobRecord "j" "i" "video" "b" "t").results.isSome ↔
      (mkJobRecord "j" "i" "video" "b" "t").status = Status.completed) ∧
    ((mkJobRecord "j" "i" "video" "b" "t").error.isSome ↔
      (mkJobRecord "j" "i" "video" "b" "t").status = Status.failed) :=
  C4_results_error_iff ⟨[], 0, ⟨0⟩, .video [], "t", false, .noFail⟩
    "j" "i" "video" "b" "t" (mkJobRecord "j" "i" "video" "b" "t")
    (List.mem_cons_self _ _)

/-! ### Lemmas about the jobs registry and the read endpoints -/

theorem get?_set_of_get? {α : Type} {l : List α} {i : Nat} {x : α}
    (h : l.get? i = some x) (a : α) : (l.set i a).get? i = some a := by
  induction l generalizing i with
  | nil => simp at h
  | cons b l ih =>
    cases i with
    | zero => rfl
    | succ n => simpa using ih (by simpa using h)

/-- Claim C6 (amended): `jobs.get(job_id)` returns a live reference, not a
copy — after the runner applies an update to the record object, dereferencing
the reference the reader obtained yields the UPDATED record. -/
theorem C6_live_reference (s : JobStore) (job_id : String) (ref : Nat)
    (f : JobRecord → JobRecord) (r : JobRecord)
    (h1 : storeGet s job_id = some ref) (h2 : heapRead s ref = some r) :
    heapRead (storeWrite s ref f) ref = some (f r) := by
  have h2' : s.heap.get? ref = some r := h2
  simp only [heapRead, storeWrite, h2']
  exact get?_set_of_get? h2' (f r)

/-- Witness for C6 (amended): a concrete store with one pending job; after the
runner's first update through the registry, the reader's reference denotes the
updated record. -/
theorem C6_live_reference_witness :
    heapRead (storeWrite ⟨[mkJobRecord "j" "i" "video" "b" "t"], [("j", 0)]⟩ 0 startUpdate) 0 =
      some (startUpdate (mkJobRecord "j" "i" "video" "b" "t")) :=
  C6_live_reference ⟨[mkJobRecord "j" "i" "video" "b" "t"], [("j", 0)]⟩ "j" 0 startUpdate
    (mkJobRecord "j" "i" "video" "b" "t") rfl rfl

/-- Counterexample for C6 as frozen: the claim says an update applied after
`get` does not change the value the reader obtained (a copy).  In the code the
reader obtained a reference (here: reference `0`, returned by `get` for job
`"j"`), and the runner's update DOES change what it denotes: dereferencing
after the update differs from dereferencing before. -/
theorem C6_counterexample :
    storeGet ⟨[mkJobRecord "j" "i" "video" "b" "t"], [("j", 0)]⟩ "j" = some 0 ∧
    heapRead (storeWrite ⟨[mkJobRecord "j" "i" "video" "b" "t"], [("j", 0)]⟩ 0 startUpdate) 0 ≠
      heapRead ⟨[mkJobRecord "j" "i" "video" "b" "t"], [("j", 0)]⟩ 0 := by
  refine ⟨rfl, ?_⟩
  intro h
  have hst := congrArg (fun o => Option.map JobRecord.status o) h
  simp [heapRead, storeWrite, startUpdate, mkJobRecord] at hst

/-- Claim C7: the results query returns a payload only for a `completed` job;
for an existing job that is not completed it fails with the distinct
"not completed" (HTTP 400) error carrying the current status, for an unknown
job id it fails with the not-found (HTTP 404) error, and the two error
outcomes are distinguishable. -/
theorem C7_results_query (s : JobStore) (disk : Option ResultsPayload) (job_id : String) :
    (jobsGet s job_id = none →
      get_job_results s disk job_id = .error (404, "Job not found")) ∧
    (∀ job, jobsGet s job_id = some job → job.status ≠ Status.completed →
      get_job_results s disk job_id =
        .error (400, "Job not completed. Current status: " ++ statusString job.status)) ∧
    (∀ res, get_job_results s disk job_id = .ok res →
      ∃ job, jobsGet s job_id = some job ∧ job.status = Status.completed) ∧
    (∀ st : Status, ((404 : Nat), "Job not found") ≠
      ((400 : Nat), "Job not completed. Current status: " ++ statusString st)) := by
  refine ⟨?_, ?_, ?_, ?_⟩
  · intro h
    simp [get_job_results, h]
  · intro job hj hs
    simp only [get_job_results, hj]
    rw [if_pos hs]
  · intro res h
    cases hj : jobsGet s job_id with
    | none => simp [get_job_results, hj] at h
    | some job =>
      by_cases hs : job.status = Status.completed
      · exact ⟨job, rfl, hs⟩
      · simp only [get_job_results, hj] at h
        rw [if_pos hs] at h
        cases h
  · intro st
    intro h
    have := congrArg Prod.fst h
    simp at this

/-- Witness for C7: on a concrete store holding one `processing` job, the query
for an unknown id yields the 404 error and the query for the processing job
yields the 400 "not completed" error. -/
theorem C7_results_query_witness :
    get_job_results ⟨[startUpdate (mkJobRecord "j" "i" "video" "b" "t")], [("j", 0)]⟩
        none "nope" = .error (404, "Job not found") ∧
    get_job_results ⟨[startUpdate (mkJobRecord "j" "i" "video" "b" "t")], [("j", 0)]⟩
        none "j" =
      .error (400, "Job not completed. Current status: " ++
        statusString (startUpdate (mkJobRecord "j" "i" "video" "b" "t")).status) :=
  ⟨(C7_results_query ⟨[startUpdate (mkJobRecord "j" "i" "video" "b" "t")], [("j", 0)]⟩
      none "nope").1 rfl,
   (C7_results_query ⟨[startUpdate (mkJobRecord "j" "i" "video" "b" "t")], [("j", 0)]⟩
      none "j").2.1 (startUpdate (mkJobRecord "j" "i" "video" "b" "t")) rfl
      (by intro h; cases h)⟩

/-! ### Cross-process behavior of the prediction seed

The counterexample below evaluates `generate_dummy_prediction` at two concrete
per-process hash salts inside the kernel.  Core `Rat` arithmetic is marked
irreducible by default, which only hides its definitional behavior from
elaborator-level reduction; it is restored here so the evaluation can proceed
by `decide`. -/

set_option allowUnsafeReducibility true in
attribute [semireducible] Rat.add Rat.mul Rat.sub Rat.neg Rat.div Rat.inv

/-- Counterexample for C1 as frozen: the seed is `hash(f"{behavior_id}_{input_hash}")`,
and CPython's string hash is keyed by a per-process salt (hash randomization,
`PYTHONHASHSEED`).  Two process invocations with different salts (here `0` and
`1`) produce DIFFERENT predictions for the same
`(behavior_id, fingerprint) = ("B1", "abc")` pair — the output is not
bit-identical across repeated process invocations; it is only deterministic
for a fixed salt (see the amended claim's theorem). -/
theorem C1_counterexample :
    generate_dummy_prediction [] 0 ⟨0⟩ "B1" "abc" ≠
      generate_dummy_prediction [] 1 ⟨0⟩ "B1" "abc" :=
  fun h => absurd (congrArg Prediction.confidence h) (by decide)
